import Mathlib

/-!
Verification development for the Techkkim service worker (src/sw.js).

The service worker is embedded shallowly:
  * a JS `Request` becomes a structure carrying method, url, origin and
    destination (the origin field models `new URL(request.url).origin`,
    computed by the host);
  * a JS `Response` becomes a structure of status, status text, the
    Content-Type header and the body string;
  * the Cache Storage API becomes an association list of named regions,
    each an association list from request url to stored response;
    `caches.match` scans every region in order, `cache.match` scans one
    region, `cache.put` replaces the entry for the url in one region
    (creating the region when absent, as `caches.open` does);
  * `fetch` becomes an oracle `Network : String → Option Response`,
    where `none` models a rejected fetch promise (network failure) and
    `some r` a fetch that resolved with response `r` (of any status);
  * each async strategy becomes a pure function from the network oracle,
    the cache store and the request to the pair of the value the returned
    promise settles with (`none` models settling with `undefined`) and
    the cache store after all its writes have landed.
-/

structure Request where
  method : String
  url : String
  /-- The origin component of `url`, as `new URL(request.url).origin`. -/
  origin : String
  /-- The `request.destination` hint: "document", "image", ... -/
  destination : String
deriving Repr, DecidableEq

structure Response where
  status : Nat
  statusText : String
  /-- The Content-Type header, when the response carries one. -/
  contentType : Option String
  body : String
deriving Repr, DecidableEq

/-- A fetch oracle: `none` is a rejected fetch (network failure). -/
abbrev Network := String → Option Response

/-- One named cache region: url ↦ stored response. -/
abbrev Region := List (String × Response)

/-- The Cache Storage: named regions in creation order. -/
abbrev CacheStore := List (String × Region)

/- Cache names from sw.js lines 4-6. -/

def CACHE_NAME : String := "techkkim-enhanced-v1.0"

def STATIC_CACHE : String := "techkkim-static-v1.0"

def DYNAMIC_CACHE : String := "techkkim-dynamic-v1.0"

/-- `STATIC_ASSETS` from sw.js lines 9-20: files cached on install. -/
def STATIC_ASSETS : List String :=
  [ "/",
    "/enhanced-techkkim.html",
    "/manifest.json",
    "https://cdn.tailwindcss.com",
    "https://storage.googleapis.com/workspace-0f70711f-8b4e-4d94-86f1-2a93ccde5887/image/2a4f375f-04f9-4560-a36d-b544a9f1d6e4.png",
    "https://storage.googleapis.com/workspace-0f70711f-8b4e-4d94-86f1-2a93ccde5887/image/3eb146d2-9782-4e05-91aa-79f4f2370c19.png",
    "https://storage.googleapis.com/workspace-0f70711f-8b4e-4d94-86f1-2a93ccde5887/image/95f6e6d0-426a-4d52-8213-ab0a6ba2def0.png",
    "https://storage.googleapis.com/workspace-0f70711f-8b4e-4d94-86f1-2a93ccde5887/image/0300a514-6c23-471e-b3b0-58218d3f7379.png",
    "https://storage.googleapis.com/workspace-0f70711f-8b4e-4d94-86f1-2a93ccde5887/image/13a22ef9-e9d3-4399-b008-405cacdb8ac7.png" ]

/-- Substring containment on strings, the embedding of JS
`haystack.includes(needle)` and of an unanchored regex literal. -/
def strContains (haystack needle : String) : Bool :=
  go needle.data haystack.data
where
  go (pat : List Char) : List Char → Bool
    | [] => pat.isPrefixOf ([] : List Char)
    | c :: rest => pat.isPrefixOf (c :: rest) || go pat rest

/-- Suffix test on strings, the embedding of a `$`-anchored regex. -/
def strEndsWith (s pat : String) : Bool :=
  pat.data.reverse.isPrefixOf s.data.reverse

/-- `DYNAMIC_PATTERNS` from sw.js lines 23-28, each regex embedded as a
Bool-valued test: the first three regexes are unanchored (substring)
matches, the last is a case-sensitive alternation anchored to the end. -/
def DYNAMIC_PATTERNS : List (String → Bool) :=
  [ fun url => strContains url "/api/",
    fun url => strContains url "/monastery/",
    fun url => strContains url "/archives/",
    fun url => strEndsWith url ".jpg" || strEndsWith url ".png" ||
               strEndsWith url ".webp" || strEndsWith url ".gif" ]

/- Cache Storage operations. -/

/-- `cache.match` inside one region. -/
def regionMatch : Region → String → Option Response
  | [], _ => none
  | (u, r) :: rest, url => if u = url then some r else regionMatch rest url

/-- `cache.match` on the handle returned by `caches.open name`. -/
def cacheMatch : CacheStore → String → String → Option Response
  | [], _, _ => none
  | (n, reg) :: rest, name, url =>
      if n = name then regionMatch reg url else cacheMatch rest name url

/-- `caches.match request`: scan every region in creation order. -/
def cachesMatch : CacheStore → String → Option Response
  | [], _ => none
  | (_, reg) :: rest, url =>
      match regionMatch reg url with
      | some r => some r
      | none => cachesMatch rest url

/-- Replace (or add) the entry for `url` in one region. -/
def regionPut : Region → String → Response → Region
  | [], url, r => [(url, r)]
  | (u, r0) :: rest, url, r =>
      if u = url then (url, r) :: rest else (u, r0) :: regionPut rest url r

/-- `caches.open name` followed by `cache.put request response`:
creates the region when absent, overwrites the entry for the url. -/
def cachePut : CacheStore → String → String → Response → CacheStore
  | [], name, url, r => [(name, [(url, r)])]
  | (n, reg) :: rest, name, url, r =>
      if n = name then (n, regionPut reg url r) :: rest
      else (n, reg) :: cachePut rest name url r

/- The offline fallback synthesizer, sw.js lines 159-254. The two
markup bodies are abridged: the source embeds a fully styled HTML page
and a 400x300 SVG; their inline CSS, emoji and layout text are elided,
keeping the document/markup structure, status, status text and
Content-Type header, which is all the spec claims speak about. -/

def offlineDocumentHtml : String :=
  "<!DOCTYPE html> <html> <head> <title>Techkkim - Offline</title> </head> <body> <h1>Techkkim Offline Mode</h1> <p>You are currently offline, but you can still explore cached monastery content!</p> <button>Try Again</button> </body> </html>"

def offlineImageSvg : String :=
  "<svg width=\"400\" height=\"300\" xmlns=\"http://www.w3.org/2000/svg\"> <rect width=\"400\" height=\"300\" fill=\"#800000\"/> <text>Monastery Image</text> <text>Available offline soon</text> <text>Techkkim Enhanced</text> </svg>"

/-- `getOfflineFallback(request)` from sw.js lines 159-254. -/
def getOfflineFallback (req : Request) : Response :=
  if req.destination = "document" then
    { status := 200, statusText := "OK",
      contentType := some "text/html", body := offlineDocumentHtml }
  else if req.destination = "image" then
    { status := 200, statusText := "OK",
      contentType := some "image/svg+xml", body := offlineImageSvg }
  else
    { status := 503, statusText := "Service Unavailable",
      contentType := none, body := "Offline - Content not available" }

/- The three strategies, sw.js lines 100-156. Each returns the value
the strategy promise settles with (`none` = settles with `undefined`)
paired with the cache store after its writes. -/

/-- `cacheFirstStrategy(request)` from sw.js lines 100-120:
cached match across all regions, else fetch; a 200 fetch result is put
into the static region; a rejected fetch yields the offline fallback. -/
def cacheFirstStrategy (net : Network) (store : CacheStore) (req : Request) :
    Option Response × CacheStore :=
  match cachesMatch store req.url with
  | some cached => (some cached, store)
  | none =>
      match net req.url with
      | none => (some (getOfflineFallback req), store)
      | some nr =>
          if nr.status = 200 then
            (some nr, cachePut store STATIC_CACHE req.url nr)
          else (some nr, store)

/-- `networkFirstStrategy(request)` from sw.js lines 123-139:
fetch first (a 200 result is put into the dynamic region); on a
rejected fetch, the cached match across all regions, else the offline
fallback. -/
def networkFirstStrategy (net : Network) (store : CacheStore) (req : Request) :
    Option Response × CacheStore :=
  match net req.url with
  | some nr =>
      if nr.status = 200 then
        (some nr, cachePut store DYNAMIC_CACHE req.url nr)
      else (some nr, store)
  | none =>
      match cachesMatch store req.url with
      | some cached => (some cached, store)
      | none => (some (getOfflineFallback req), store)

/-- `staleWhileRevalidateStrategy(request)` from sw.js lines 142-156:
the cached match is looked up in the dynamic region only; the network
branch puts a 200 result into the dynamic region and on rejection
resolves to the already looked-up cached value; the call returns the
cached match when present, else the network branch value. When the
cached match is absent and the fetch rejects, the network branch
resolves to `undefined` (`none` here). -/
def staleWhileRevalidateStrategy (net : Network) (store : CacheStore)
    (req : Request) : Option Response × CacheStore :=
  let cached := cacheMatch store DYNAMIC_CACHE req.url
  let store2 :=
    match net req.url with
    | some nr =>
        if nr.status = 200 then cachePut store DYNAMIC_CACHE req.url nr
        else store
    | none => store
  let networkResult : Option Response :=
    match net req.url with
    | some nr => some nr
    | none => cached
  match cached with
  | some c => (some c, store2)
  | none => (networkResult, store2)

/- The fetch-event router, sw.js lines 74-97. -/

inductive Strategy where
  | cacheFirst
  | networkFirst
  | staleWhileRevalidate
deriving Repr, DecidableEq

/-- The fetch listener dispatch from sw.js lines 74-97: `none` models
returning without `event.respondWith` (the request passes through
untouched), `some s` models `event.respondWith` with strategy `s`.
`locationOrigin` is the worker's `location.origin`. -/
def fetchDispatch (locationOrigin : String) (req : Request) : Option Strategy :=
  if req.method ≠ "GET" then none
  else if req.origin = locationOrigin then some .cacheFirst
  else if STATIC_ASSETS.any (fun asset => strContains req.url asset) then
    some .cacheFirst
  else if DYNAMIC_PATTERNS.any (fun pattern => pattern req.url) then
    some .networkFirst
  else some .staleWhileRevalidate

/- The install handler, sw.js lines 31-48. -/

/-- The host Cache API `cache.addAll urls` on the region `name`:
fetches every url and, only when every fetch resolves, puts all the
responses (the batch rejects and stores nothing when any fetch
rejects). -/
def addAll (net : Network) (store : CacheStore) (name : String)
    (urls : List String) : Option CacheStore :=
  if urls.all (fun u => (net u).isSome) then
    some (putAllFetched net store name urls)
  else none
where
  putAllFetched (net : Network) (store : CacheStore) (name : String) :
      List String → CacheStore
    | [] => store
    | u :: rest =>
        match net u with
        | some r => putAllFetched net (cachePut store name u r) name rest
        | none => putAllFetched net store name rest

/-- Outcome of one run of the install event handler. -/
structure InstallOutcome where
  /-- Whether the promise handed to `event.waitUntil` resolved
  (`false` would mean the host runtime treats the install as failed). -/
  resolvedOk : Bool
  /-- Whether `self.skipWaiting()` was reached. -/
  skipWaitingCalled : Bool
  store : CacheStore
deriving Repr, DecidableEq

/-- The install listener from sw.js lines 31-48: open the static
region, `addAll` the static assets, then `skipWaiting`; the trailing
`.catch` logs any error and yields a resolved promise, so the chain
handed to `event.waitUntil` always resolves. -/
def installHandler (net : Network) (store : CacheStore) : InstallOutcome :=
  match addAll net store STATIC_CACHE STATIC_ASSETS with
  | some store2 => { resolvedOk := true, skipWaitingCalled := true, store := store2 }
  | none => { resolvedOk := true, skipWaitingCalled := false, store := store }

/- The deferred-sync functions, sw.js lines 257-322. The pending items
come from the external queue collaborators (`getPendingVisits`,
`getPendingChatMessages`) and `JSON.stringify` is host functionality,
so both are parameters; `post url body = false` models a rejected
POST fetch. -/

/-- The message posted to a client on sync completion,
`\x7btype, data: \x7bsynced\x7d\x7d` in the source. -/
structure SyncMessage where
  type : String
  synced : Nat
deriving Repr, DecidableEq

/-- Outcome of one run of a sync function. -/
structure SyncOutcome where
  /-- JSON bodies POSTed, in the order the POSTs were issued. -/
  attempted : List String
  /-- Messages posted, one per controlled client. -/
  messages : List (Nat × SyncMessage)
deriving Repr, DecidableEq

/-- The sequential `for ... await fetch(endpoint, \x7bmethod: POST ...\x7d)`
loop shared by both sync functions: each POST is awaited before the
next starts; a rejected POST aborts the loop (the surrounding
`try/catch`). Returns the bodies POSTed in order and whether the whole
batch succeeded. -/
def postSequentially {α : Type} (post : String → String → Bool)
    (endpoint : String) (stringify : α → String) :
    List α → List String × Bool
  | [] => ([], true)
  | item :: rest =>
      if post endpoint (stringify item) then
        let res := postSequentially post endpoint stringify rest
        (stringify item :: res.1, res.2)
      else ([stringify item], false)

/-- `syncMonasteryData()` from sw.js lines 268-299: POST each pending
visit sequentially to /api/monastery-visits; on full success post
`SYNC_COMPLETE` with the pending count to every controlled client; a
failure is caught and logged, and no message is posted. -/
def syncMonasteryData {α : Type} (post : String → String → Bool)
    (stringify : α → String) (pendingVisits : List α)
    (clients : List Nat) : SyncOutcome :=
  let res := postSequentially post "/api/monastery-visits" stringify pendingVisits
  if res.2 then
    { attempted := res.1,
      messages := clients.map
        (fun c => (c, { type := "SYNC_COMPLETE", synced := pendingVisits.length })) }
  else { attempted := res.1, messages := [] }

/-- `syncChatMessages()` from sw.js lines 302-322: POST each pending
message sequentially to /api/chat-messages; no client message is
posted in either outcome (the function only logs). -/
def syncChatMessages {α : Type} (post : String → String → Bool)
    (stringify : α → String) (pendingMessages : List α) : SyncOutcome :=
  let res := postSequentially post "/api/chat-messages" stringify pendingMessages
  { attempted := res.1, messages := [] }

/-- Which sync function a background-sync tag triggers. -/
inductive SyncTask where
  | monastery
  | chat
  | ignored
deriving Repr, DecidableEq

/-- The sync listener dispatch from sw.js lines 257-265. -/
def syncHandlerDispatch (tag : String) : SyncTask :=
  if tag = "background-monastery-sync" then .monastery
  else if tag = "background-chat-sync" then .chat
  else .ignored

/- Helper lemmas. -/

theorem regionMatch_regionPut (reg : Region) (url : String) (r : Response)
    (a : String) :
    regionMatch (regionPut reg url r) a =
      if url = a then some r else regionMatch reg a := by
  induction reg with
  | nil => simp [regionPut, regionMatch]
  | cons p rest ih =>
      obtain ⟨u, r0⟩ := p
      by_cases hu : u = url
      · subst hu
        by_cases ha : u = a
        · subst ha
          simp [regionPut, regionMatch]
        · simp [regionPut, regionMatch, ha]
      · by_cases ha : u = a
        · subst ha
          have hne : ¬ url = u := fun h => hu h.symm
          simp [regionPut, regionMatch, hu, hne]
        · simp [regionPut, regionMatch, hu, ha, ih]

theorem cacheMatch_cachePut (store : CacheStore) (name url : String)
    (r : Response) (n a : String) :
    cacheMatch (cachePut store name url r) n a =
      if name = n ∧ url = a then some r else cacheMatch store n a := by
  induction store with
  | nil =>
      by_cases hn : name = n
      · subst hn
        simp [cachePut, cacheMatch, regionMatch]
      · simp [cachePut, cacheMatch, hn]
  | cons p rest ih =>
      obtain ⟨n0, reg⟩ := p
      by_cases h0 : n0 = name
      · subst h0
        by_cases hn : n0 = n
        · subst hn
          simp [cachePut, cacheMatch, regionMatch_regionPut]
        · simp [cachePut, cacheMatch, hn]
      · by_cases hn : n0 = n
        · subst hn
          have hne : ¬ (name = n0 ∧ url = a) := fun h => h0 h.1.symm
          simp [cachePut, cacheMatch, h0, hne]
        · simp [cachePut, cacheMatch, h0, hn, ih]

theorem putAllFetched_cacheMatch (net : Network) (name : String)
    (urls : List String) (h : ∀ u ∈ urls, (net u).isSome = true) :
    ∀ (store : CacheStore) (a : String),
    cacheMatch (addAll.putAllFetched net store name urls) name a =
      if a ∈ urls then net a else cacheMatch store name a := by
  induction urls with
  | nil =>
      intro store a
      simp [addAll.putAllFetched]
  | cons u rest ih =>
      intro store a
      obtain ⟨r, hr⟩ := Option.isSome_iff_exists.mp (h u (by simp))
      have hrest : ∀ v ∈ rest, (net v).isSome = true :=
        fun v hv => h v (by simp [hv])
      simp only [addAll.putAllFetched, hr]
      rw [ih hrest]
      by_cases hmem : a ∈ rest
      · simp [hmem]
      · by_cases hau : a = u
        · subst hau
          simp [hmem, cacheMatch_cachePut, hr]
        · have hua : ¬ u = a := fun hh => hau hh.symm
          simp [hmem, hau, cacheMatch_cachePut, hua]

theorem postSequentially_all_ok {α : Type} (post : String → String → Bool)
    (ep : String) (stringify : α → String) (pending : List α)
    (h : ∀ x ∈ pending, post ep (stringify x) = true) :
    postSequentially post ep stringify pending = (pending.map stringify, true) := by
  induction pending with
  | nil => rfl
  | cons x rest ih =>
      have hx : post ep (stringify x) = true := h x (by simp)
      simp only [postSequentially, hx, if_true, List.map_cons]
      rw [ih (fun y hy => h y (by simp [hy]))]

theorem postSequentially_abort {α : Type} (post : String → String → Bool)
    (ep : String) (stringify : α → String) (pre rest : List α) (x : α)
    (hpre : ∀ a ∈ pre, post ep (stringify a) = true)
    (hx : post ep (stringify x) = false) :
    postSequentially post ep stringify (pre ++ x :: rest) =
      (pre.map stringify ++ [stringify x], false) := by
  induction pre with
  | nil => simp [postSequentially, hx]
  | cons a pre2 ih =>
      have ha : post ep (stringify a) = true := hpre a (by simp)
      simp only [List.cons_append, postSequentially, ha, if_true, List.map_cons,
        List.append_eq]
      rw [ih (fun b hb => hpre b (by simp [hb]))]

/- Concrete inputs for the witnesses and counterexamples. -/

/-- A network oracle on which every fetch rejects. -/
def failNet : Network := fun _ => none

/-- A 200 network response. -/
def okResponse : Response :=
  { status := 200, statusText := "OK",
    contentType := some "application/json", body := "fresh 200" }

/-- A network oracle on which every fetch resolves with `okResponse`. -/
def okNet : Network := fun _ => some okResponse

/-- A 201 (2xx but not 200) network response. -/
def createdResponse : Response :=
  { status := 201, statusText := "Created", contentType := none, body := "created" }

/-- A network oracle on which every fetch resolves with `createdResponse`. -/
def createdNet : Network := fun _ => some createdResponse

/-- A GET page request from a third-party origin with destination
"document". -/
def sampleRequest : Request :=
  { method := "GET", url := "https://example.com/page",
    origin := "https://example.com", destination := "document" }

/-- A GET request with destination "image". -/
def imageRequest : Request :=
  { method := "GET", url := "https://example.com/photo.jpg",
    origin := "https://example.com", destination := "image" }

/-- A GET request with a destination that is neither "document" nor
"image". -/
def scriptRequest : Request :=
  { method := "GET", url := "https://example.com/app.js",
    origin := "https://example.com", destination := "script" }

/-- An older cached API response. -/
def cachedResponseA : Response :=
  { status := 200, statusText := "OK",
    contentType := some "application/json", body := "cached" }

/-- A GET API request. -/
def apiRequest : Request :=
  { method := "GET", url := "https://api.test/api/data",
    origin := "https://api.test", destination := "" }

/-- A store whose dynamic region holds `cachedResponseA` for
`apiRequest`. -/
def storeWithDynamicEntry : CacheStore :=
  [(DYNAMIC_CACHE, [("https://api.test/api/data", cachedResponseA)])]

/-- A response stored in the static region only. -/
def staticResponse : Response :=
  { status := 200, statusText := "OK",
    contentType := some "text/css", body := "static entry" }

/-- A GET request for a third-party widget. -/
def widgetRequest : Request :=
  { method := "GET", url := "https://thirdparty.example/widget",
    origin := "https://thirdparty.example", destination := "script" }

/-- A store whose static region (and no other region) holds
`staticResponse` for `widgetRequest`. -/
def staticOnlyStore : CacheStore :=
  [(STATIC_CACHE, [("https://thirdparty.example/widget", staticResponse)])]

/-- A POST oracle that accepts only the body "v1". -/
def syncPost : String → String → Bool := fun _ body => body == "v1"

/-- A POST oracle that accepts every body. -/
def alwaysOkPost : String → String → Bool := fun _ _ => true

/- Claim theorems. -/

/-- C1 counterexample: a GET request (destination "document"), an empty
cache store and a network on which every fetch rejects make
stale-while-revalidate settle with `undefined` (`none`): the cached
match in the dynamic region is absent, the network branch rejects and
resolves to that absent cached value, and the fallback chain is never
invoked. -/
theorem swr_can_resolve_undefined :
    sampleRequest.method = "GET" ∧
    (staleWhileRevalidateStrategy failNet [] sampleRequest).1 = none := by
  exact ⟨rfl, rfl⟩

/-- C1 (corrected): cache-first and network-first always settle with
some response, but stale-while-revalidate settles with a response
exactly when the dynamic region holds a match or the network fetch
resolves; when both fail it settles with an absent value and the
offline fallback is not consulted. -/
theorem strategies_always_respond (net : Network) (store : CacheStore)
    (req : Request) :
    (cacheFirstStrategy net store req).1.isSome = true ∧
    (networkFirstStrategy net store req).1.isSome = true ∧
    ((staleWhileRevalidateStrategy net store req).1.isSome = true ↔
      (cacheMatch store DYNAMIC_CACHE req.url).isSome = true ∨
        (net req.url).isSome = true) := by
  refine ⟨?_, ?_, ?_⟩
  · unfold cacheFirstStrategy
    cases h1 : cachesMatch store req.url
    · cases h2 : net req.url
      · simp
      · simp only []
        split <;> simp
    · simp
  · unfold networkFirstStrategy
    cases h2 : net req.url
    · cases h1 : cachesMatch store req.url <;> simp
    · simp only []
      split <;> simp
  · unfold staleWhileRevalidateStrategy
    cases h1 : cacheMatch store DYNAMIC_CACHE req.url
    · cases h2 : net req.url <;> simp
    · cases h2 : net req.url <;> simp

/-- C2 (spec-side definition): the dispatch rule as the specification's
routing section states it, written from the spec's words — non-GET
requests pass through with no strategy; a GET goes same-origin to
cache-first, else static-asset allowlist substring to cache-first, else
a dynamic-content pattern (the API path marker, the two content path
markers, or a case-sensitive image extension anchored to the end of the
string) to network-first, else to stale-while-revalidate. -/
def routeSpec (locationOrigin : String) (req : Request) : Option Strategy :=
  if req.method ≠ "GET" then none
  else if req.origin = locationOrigin then some .cacheFirst
  else if STATIC_ASSETS.any (fun asset => strContains req.url asset) then
    some .cacheFirst
  else if strContains req.url "/api/" || (strContains req.url "/monastery/" ||
          (strContains req.url "/archives/" ||
           (strEndsWith req.url ".jpg" || strEndsWith req.url ".png" ||
            strEndsWith req.url ".webp" || strEndsWith req.url ".gif"))) then
    some .networkFirst
  else some .staleWhileRevalidate

/-- C2: the fetch listener dispatch agrees with the specification's
routing rule on every request: non-GET requests get no strategy, and a
GET request is handed to exactly one strategy by the stated precedence
(same-origin, then static-asset substring, to cache-first; then dynamic
patterns to network-first; stale-while-revalidate otherwise). -/
theorem fetchDispatch_follows_routeSpec (locationOrigin : String)
    (req : Request) :
    fetchDispatch locationOrigin req = routeSpec locationOrigin req := by
  simp only [fetchDispatch, routeSpec, DYNAMIC_PATTERNS, List.any_cons,
    List.any_nil, Bool.or_false, Bool.or_assoc]

/-- C3: the offline fallback synthesizer returns, for destination
"document", a status-200 response with the HTML content type; for
destination "image", a status-200 response with an image content type
(SVG); and for every other destination, a status-503 response. -/
theorem getOfflineFallback_by_destination (req : Request) :
    (req.destination = "document" →
      (getOfflineFallback req).status = 200 ∧
      (getOfflineFallback req).contentType = some "text/html") ∧
    (req.destination = "image" →
      (getOfflineFallback req).status = 200 ∧
      (getOfflineFallback req).contentType = some "image/svg+xml") ∧
    (req.destination ≠ "document" → req.destination ≠ "image" →
      (getOfflineFallback req).status = 503) := by
  refine ⟨?_, ?_, ?_⟩
  · intro h
    simp [getOfflineFallback, h]
  · intro h
    simp [getOfflineFallback, h]
  · intro h1 h2
    simp [getOfflineFallback, h1, h2]

/-- C3 witness: the fallback evaluated on a document request, an image
request and a script request. -/
theorem getOfflineFallback_by_destination_witness :
    (getOfflineFallback sampleRequest).status = 200 ∧
    (getOfflineFallback sampleRequest).contentType = some "text/html" ∧
    (getOfflineFallback imageRequest).status = 200 ∧
    (getOfflineFallback imageRequest).contentType = some "image/svg+xml" ∧
    (getOfflineFallback scriptRequest).status = 503 := by
  refine ⟨?_, ?_, ?_, ?_, ?_⟩
  · exact ((getOfflineFallback_by_destination sampleRequest).1 rfl).1
  · exact ((getOfflineFallback_by_destination sampleRequest).1 rfl).2
  · exact ((getOfflineFallback_by_destination imageRequest).2.1 rfl).1
  · exact ((getOfflineFallback_by_destination imageRequest).2.1 rfl).2
  · exact (getOfflineFallback_by_destination scriptRequest).2.2
      (by decide) (by decide)

/-- C5 counterexample: a network response with status 201 — a 2xx
success — obtained by network-first on a cold cache is returned to the
caller but not stored (the code stores only on status exactly 200), so
the store stays empty. -/
theorem status_201_not_stored :
    200 ≤ createdResponse.status ∧ createdResponse.status < 300 ∧
    (networkFirstStrategy createdNet [] apiRequest).1 = some createdResponse ∧
    (networkFirstStrategy createdNet [] apiRequest).2 = [] := by
  exact ⟨by decide, by decide, rfl, rfl⟩

/-- C5 (corrected): a network response obtained by any of the three
strategies is stored into the corresponding region — static for
cache-first, dynamic for the other two — exactly when its status is
200 (not any other 2xx status), and storing overwrites any prior entry
for the same request identity. -/
theorem strategies_store_only_status_200 (net : Network) (store : CacheStore)
    (req : Request) (nr : Response) (hnet : net req.url = some nr) :
    (cachesMatch store req.url = none →
      cacheMatch (cacheFirstStrategy net store req).2 STATIC_CACHE req.url =
        if nr.status = 200 then some nr
        else cacheMatch store STATIC_CACHE req.url) ∧
    (cacheMatch (networkFirstStrategy net store req).2 DYNAMIC_CACHE req.url =
      if nr.status = 200 then some nr
      else cacheMatch store DYNAMIC_CACHE req.url) ∧
    (cacheMatch (staleWhileRevalidateStrategy net store req).2 DYNAMIC_CACHE
        req.url =
      if nr.status = 200 then some nr
      else cacheMatch store DYNAMIC_CACHE req.url) := by
  refine ⟨?_, ?_, ?_⟩
  · intro hmiss
    by_cases h200 : nr.status = 200
    · simp [cacheFirstStrategy, hmiss, hnet, h200, cacheMatch_cachePut]
    · simp [cacheFirstStrategy, hmiss, hnet, h200]
  · by_cases h200 : nr.status = 200
    · simp [networkFirstStrategy, hnet, h200, cacheMatch_cachePut]
    · simp [networkFirstStrategy, hnet, h200]
  · cases hc : cacheMatch store DYNAMIC_CACHE req.url
    · by_cases h200 : nr.status = 200
      · simp [staleWhileRevalidateStrategy, hnet, hc, h200, cacheMatch_cachePut]
      · simp [staleWhileRevalidateStrategy, hnet, hc, h200]
    · by_cases h200 : nr.status = 200
      · simp [staleWhileRevalidateStrategy, hnet, hc, h200, cacheMatch_cachePut]
      · simp [staleWhileRevalidateStrategy, hnet, hc, h200]

/-- C5 witness: a 200 response overwrites the prior dynamic entry for
the same request identity, and a 201 response leaves the prior entry in
place. -/
theorem strategies_store_only_status_200_witness :
    cacheMatch (networkFirstStrategy okNet storeWithDynamicEntry apiRequest).2
        DYNAMIC_CACHE apiRequest.url = some okResponse ∧
    cacheMatch
        (networkFirstStrategy createdNet storeWithDynamicEntry apiRequest).2
        DYNAMIC_CACHE apiRequest.url = some cachedResponseA := by
  constructor
  · have h := (strategies_store_only_status_200 okNet storeWithDynamicEntry
      apiRequest okResponse rfl).2.1
    rw [h]
    rfl
  · have h := (strategies_store_only_status_200 createdNet storeWithDynamicEntry
      apiRequest createdResponse rfl).2.1
    rw [h]
    rfl

/-- C6: when the network fetch rejects, network-first returns the
cached match across all regions when one exists (the entry itself, so
the same status and body) and the offline fallback when none exists; in
both cases the store is unchanged. -/
theorem networkFirst_failure_fallback (net : Network) (store : CacheStore)
    (req : Request) (hfail : net req.url = none) :
    (∀ c, cachesMatch store req.url = some c →
      networkFirstStrategy net store req = (some c, store)) ∧
    (cachesMatch store req.url = none →
      networkFirstStrategy net store req = (some (getOfflineFallback req), store)) := by
  constructor
  · intro c hc
    simp [networkFirstStrategy, hfail, hc]
  · intro hc
    simp [networkFirstStrategy, hfail, hc]

/-- C6 witness: network-first with a rejecting network on a store
holding a dynamic entry returns exactly that entry, and on an empty
store returns the offline fallback. -/
theorem networkFirst_failure_fallback_witness :
    networkFirstStrategy failNet storeWithDynamicEntry apiRequest =
      (some cachedResponseA, storeWithDynamicEntry) ∧
    networkFirstStrategy failNet [] apiRequest =
      (some (getOfflineFallback apiRequest), []) := by
  constructor
  · exact (networkFirst_failure_fallback failNet storeWithDynamicEntry
      apiRequest rfl).1 cachedResponseA rfl
  · exact (networkFirst_failure_fallback failNet [] apiRequest rfl).2 rfl

/-- C7: when the dynamic region holds a match, stale-while-revalidate
returns exactly that cached value for every network oracle — so the
returned value does not depend on the network fetch at all, and in
particular a fresher network response is never the returned value of
the current call. -/
theorem swr_returns_cached (net : Network) (store : CacheStore) (req : Request)
    (c : Response) (hc : cacheMatch store DYNAMIC_CACHE req.url = some c) :
    (staleWhileRevalidateStrategy net store req).1 = some c ∧
    ∀ nr : Response, net req.url = some nr → nr ≠ c →
      (staleWhileRevalidateStrategy net store req).1 ≠ some nr := by
  have h1 : (staleWhileRevalidateStrategy net store req).1 = some c := by
    simp [staleWhileRevalidateStrategy, hc]
  refine ⟨h1, fun nr _ hne => ?_⟩
  rw [h1]
  intro h
  exact hne (Option.some.inj h).symm

/-- C7 witness: with a cached dynamic entry, the returned value is the
cached value both when the network resolves with a fresher response and
when it rejects, and it is never the fresher response. -/
theorem swr_returns_cached_witness :
    (staleWhileRevalidateStrategy okNet storeWithDynamicEntry apiRequest).1 =
      some cachedResponseA ∧
    (staleWhileRevalidateStrategy failNet storeWithDynamicEntry apiRequest).1 =
      some cachedResponseA ∧
    (staleWhileRevalidateStrategy okNet storeWithDynamicEntry apiRequest).1 ≠
      some okResponse := by
  refine ⟨?_, ?_, ?_⟩
  · exact (swr_returns_cached okNet storeWithDynamicEntry apiRequest
      cachedResponseA rfl).1
  · exact (swr_returns_cached failNet storeWithDynamicEntry apiRequest
      cachedResponseA rfl).1
  · exact (swr_returns_cached okNet storeWithDynamicEntry apiRequest
      cachedResponseA rfl).2 okResponse rfl (by decide)

/-- C10: an entry present in some region but not in the dynamic region
is never the cached match of stale-while-revalidate (with the network
also rejecting, the call settles with an absent value), whereas
cache-first returns it and network-first on network failure returns
it. -/
theorem swr_matches_dynamic_region_only (net : Network) (store : CacheStore)
    (req : Request) (r : Response) (hfail : net req.url = none)
    (hdyn : cacheMatch store DYNAMIC_CACHE req.url = none)
    (hall : cachesMatch store req.url = some r) :
    (staleWhileRevalidateStrategy net store req).1 = none ∧
    (cacheFirstStrategy net store req).1 = some r ∧
    (networkFirstStrategy net store req).1 = some r := by
  refine ⟨?_, ?_, ?_⟩
  · simp [staleWhileRevalidateStrategy, hdyn, hfail]
  · simp [cacheFirstStrategy, hall]
  · simp [networkFirstStrategy, hfail, hall]

/-- C10 witness: a store holding an entry only in the static region —
stale-while-revalidate misses it while cache-first and network-first
(on network failure) return it. -/
theorem swr_matches_dynamic_region_only_witness :
    (staleWhileRevalidateStrategy failNet staticOnlyStore widgetRequest).1 =
      none ∧
    (cacheFirstStrategy failNet staticOnlyStore widgetRequest).1 =
      some staticResponse ∧
    (networkFirstStrategy failNet staticOnlyStore widgetRequest).1 =
      some staticResponse := by
  exact swr_matches_dynamic_region_only failNet staticOnlyStore widgetRequest
    staticResponse rfl rfl rfl

/-- C4 counterexample: with a network on which every fetch rejects, a
listed asset fails to fetch, yet the promise handed to
`event.waitUntil` resolves — the trailing catch logs the error and
swallows it — so the host runtime sees a successful installation and
does not retry; only the `skipWaiting` step is skipped. -/
theorem install_failure_swallowed :
    "/" ∈ STATIC_ASSETS ∧ failNet "/" = none ∧
    (installHandler failNet []).resolvedOk = true ∧
    (installHandler failNet []).skipWaitingCalled = false := by
  refine ⟨by simp [STATIC_ASSETS], rfl, rfl, rfl⟩

/-- C4 (corrected): the install promise always resolves. When every
listed asset fetches, every asset is stored in the static region and
`skipWaiting` is reached; when any asset fails to fetch, the batch
stores nothing and `skipWaiting` is not reached, but the install still
settles successfully (the error is swallowed by the logging catch), so
the host runtime does not treat the installation as failed. -/
theorem installHandler_outcome (net : Network) (store : CacheStore) :
    (installHandler net store).resolvedOk = true ∧
    ((∀ a ∈ STATIC_ASSETS, (net a).isSome = true) →
      (installHandler net store).skipWaitingCalled = true ∧
      ∀ a ∈ STATIC_ASSETS,
        cacheMatch (installHandler net store).store STATIC_CACHE a = net a) ∧
    ((∃ a ∈ STATIC_ASSETS, net a = none) →
      (installHandler net store).skipWaitingCalled = false ∧
      (installHandler net store).store = store) := by
  refine ⟨?_, ?_, ?_⟩
  · unfold installHandler
    cases h : addAll net store STATIC_CACHE STATIC_ASSETS <;> rfl
  · intro hall
    have hb : STATIC_ASSETS.all (fun u => (net u).isSome) = true :=
      List.all_eq_true.mpr (fun u hu => hall u hu)
    constructor
    · simp [installHandler, addAll, hb]
    · intro a ha
      have hput := putAllFetched_cacheMatch net STATIC_CACHE STATIC_ASSETS
        hall store a
      simp [installHandler, addAll, hb, hput, ha]
  · rintro ⟨a, ha, hnone⟩
    have hb : STATIC_ASSETS.all (fun u => (net u).isSome) = false := by
      cases hb2 : STATIC_ASSETS.all (fun u => (net u).isSome) with
      | false => rfl
      | true =>
          have := List.all_eq_true.mp hb2 a ha
          rw [hnone] at this
          simp at this
    simp [installHandler, addAll, hb]

/-- C4 witness: a network on which every fetch resolves with a 200
response installs every asset and reaches `skipWaiting`; the rejecting
network leaves the store untouched and skips `skipWaiting`. -/
theorem installHandler_outcome_witness :
    (installHandler okNet []).resolvedOk = true ∧
    (installHandler okNet []).skipWaitingCalled = true ∧
    cacheMatch (installHandler okNet []).store STATIC_CACHE "/" =
      some okResponse ∧
    (installHandler failNet []).skipWaitingCalled = false ∧
    (installHandler failNet []).store = [] := by
  have hok := installHandler_outcome okNet []
  have hfail := installHandler_outcome failNet []
  have hall : ∀ a ∈ STATIC_ASSETS, (okNet a).isSome = true := fun a _ => rfl
  have hmem : "/" ∈ STATIC_ASSETS := by simp [STATIC_ASSETS]
  have hex : ∃ a ∈ STATIC_ASSETS, failNet a = none := ⟨"/", hmem, rfl⟩
  exact ⟨hok.1, (hok.2.1 hall).1, (hok.2.1 hall).2 "/" hmem,
    (hfail.2.2 hex).1, (hfail.2.2 hex).2⟩

/-- C8: with pending items split as a succeeding run, a failing item
and a remainder, both sync functions POST the succeeding run in list
order, then the failing item, and never POST the remainder in that
invocation; the monastery sync posts no completion message. -/
theorem sync_sequential_abort {α : Type} (post : String → String → Bool)
    (stringify : α → String) (pre rest : List α) (x : α) (clients : List Nat)
    (hpre : ∀ ep : String, ∀ a ∈ pre, post ep (stringify a) = true)
    (hx : ∀ ep : String, post ep (stringify x) = false) :
    (syncMonasteryData post stringify (pre ++ x :: rest) clients).attempted =
      pre.map stringify ++ [stringify x] ∧
    (syncMonasteryData post stringify (pre ++ x :: rest) clients).messages =
      [] ∧
    (syncChatMessages post stringify (pre ++ x :: rest)).attempted =
      pre.map stringify ++ [stringify x] := by
  have h1 := postSequentially_abort post "/api/monastery-visits" stringify
    pre rest x (hpre _) (hx _)
  have h2 := postSequentially_abort post "/api/chat-messages" stringify
    pre rest x (hpre _) (hx _)
  refine ⟨?_, ?_, ?_⟩ <;> simp [syncMonasteryData, syncChatMessages, h1, h2]

/-- C8 witness: three pending items with the second POST failing — the
first is sent, the second is attempted and fails, the third is never
sent, and no completion message is posted. -/
theorem sync_sequential_abort_witness :
    (syncMonasteryData syncPost (fun s => s) ["v1", "v2", "v3"] [0]).attempted =
      ["v1", "v2"] ∧
    (syncMonasteryData syncPost (fun s => s) ["v1", "v2", "v3"] [0]).messages =
      [] ∧
    "v3" ∉ (syncMonasteryData syncPost (fun s => s) ["v1", "v2", "v3"]
      [0]).attempted := by
  have hpre : ∀ ep : String, ∀ a ∈ (["v1"] : List String),
      syncPost ep a = true := by
    intro ep a ha
    rcases List.mem_singleton.mp ha with rfl
    rfl
  have hx : ∀ ep : String, syncPost ep "v2" = false := fun ep => rfl
  have h := sync_sequential_abort syncPost (fun s => s) ["v1"] ["v3"] "v2" [0]
    hpre hx
  refine ⟨h.1, h.2.1, ?_⟩
  rw [show (syncMonasteryData syncPost (fun s => s) ["v1", "v2", "v3"]
    [0]).attempted = ["v1", "v2"] from h.1]
  decide

/-- C9 counterexample: the tag "background-chat-sync" is recognized and
dispatches to the chat sync, whose single-item batch fully succeeds,
yet no SYNC_COMPLETE message is posted to any client — the chat sync
never posts messages. -/
theorem chat_sync_posts_no_message :
    syncHandlerDispatch "background-chat-sync" = SyncTask.chat ∧
    (syncChatMessages alwaysOkPost (fun s => s) ["m1"]).attempted = ["m1"] ∧
    (syncChatMessages alwaysOkPost (fun s => s) ["m1"]).messages = [] := by
  exact ⟨rfl, rfl, rfl⟩

/-- C9 (corrected): after a fully successful batch, the monastery sync
posts the message type SYNC_COMPLETE with the count of items synced to
every controlled client, but the chat sync posts no message to any
client. -/
theorem sync_complete_notification {α : Type} (post : String → String → Bool)
    (stringify : α → String) (pending : List α) (clients : List Nat)
    (hall : ∀ ep : String, ∀ a ∈ pending, post ep (stringify a) = true) :
    (syncMonasteryData post stringify pending clients).messages =
      clients.map
        (fun c => (c, { type := "SYNC_COMPLETE", synced := pending.length })) ∧
    (syncChatMessages post stringify pending).messages = [] := by
  have h1 := postSequentially_all_ok post "/api/monastery-visits" stringify
    pending (hall _)
  constructor
  · simp [syncMonasteryData, h1]
  · simp [syncChatMessages]

/-- C9 witness: a fully successful two-item monastery batch posts
SYNC_COMPLETE with count 2 to both clients; a fully successful one-item
chat batch posts nothing. -/
theorem sync_complete_notification_witness :
    (syncMonasteryData alwaysOkPost (fun s => s) ["v1", "v2"] [0, 1]).messages =
      [(0, { type := "SYNC_COMPLETE", synced := 2 }),
       (1, { type := "SYNC_COMPLETE", synced := 2 })] ∧
    (syncChatMessages alwaysOkPost (fun s => s) ["m1"]).messages = [] := by
  have h := sync_complete_notification alwaysOkPost (fun s => s) ["v1", "v2"]
    [0, 1] (fun ep a ha => rfl)
  have h2 := sync_complete_notification alwaysOkPost (fun s => s) ["m1"]
    ([] : List Nat) (fun ep a ha => rfl)
  exact ⟨h.1, h2.2⟩
